import Mathlib

/-!
Verification of the IR-Safety analysis script (`IR-Safety/safety-check.py`)
of the OpenIrisDPI repository.

The script is a straight-line numerical computation.  We embed each step as a
parametric Lean definition over exact rationals (grid points, interpolant
values, measured power) and exact reals (the power-law expressions that the
script evaluates with floating-point `**`).  Interpolants (`CubicSpline`
objects in the script) are modelled as arbitrary functions `ℚ → ℚ`: every
claim below is quantified over them.
-/

namespace IRSafety

/-- Model of `np.arange w0 w1 dw`: the points `w0 + i*dw` for
`0 ≤ i < ⌈(w1 - w0)/dw⌉`, i.e. the half-open grid `[w0, w1)`
(script line 147: `wavelengths = np.arange(w0, w1, dw)`). -/
def arange (w0 w1 dw : ℚ) : List ℚ :=
  (List.range (⌈(w1 - w0) / dw⌉.toNat)).map (fun i : ℕ => w0 + (i : ℚ) * dw)

/-- Model of `np.dot` on equal-length vectors. -/
def dot : List ℚ → List ℚ → ℚ
  | x :: xs, y :: ys => x * y + dot xs ys
  | _, _ => 0

/-- Script line 160: `sensor_interp(wavelengths) / sensor_interp(calibrated_wavelength)`,
pointwise normalized sensitivity. -/
def sensor_sensitivity (sens : ℚ → ℚ) (cal : ℚ) (w : ℚ) : ℚ :=
  sens w / sens cal

/-- Script line 239:
`denominator = np.dot(illuminator_interp(wavelengths), sensor_sensitivity) * dw * sensor_area`. -/
def denominator (illum sens : ℚ → ℚ) (cal : ℚ) (grid : List ℚ) (dw A : ℚ) : ℚ :=
  dot (grid.map illum) (grid.map (sensor_sensitivity sens cal)) * dw * A

/-- Script line 242: `scaling_factor_I = measured_power / denominator`. -/
def scaling_factor_I (P : ℚ) (illum sens : ℚ → ℚ) (cal : ℚ) (grid : List ℚ) (dw A : ℚ) : ℚ :=
  P / denominator illum sens cal grid dw A

/-- Script line 249: `illuminator_spectral_irradiance = scaling_factor_I * illuminator_interp(wavelengths)`. -/
def illuminator_spectral_irradiance (I : ℚ) (illum : ℚ → ℚ) (grid : List ℚ) : List ℚ :=
  grid.map (fun w => I * illum w)

/-- Script line 252: `total_calculated_irradiance = np.sum(illuminator_spectral_irradiance) * dw`. -/
def total_calculated_irradiance (arr : List ℚ) (dw : ℚ) : ℚ :=
  arr.sum * dw

/-- The error taxonomy named by the specification.  The script itself defines
no error types and raises nothing; the taxonomy exists only so that the
`Except`-valued embeddings below can say "never fails" formally. -/
inductive CoreError
  | DataError
  | ConfigError
  | ComputationError
deriving DecidableEq

/-- The scaling-factor computation as a fallible operation.  The script
(lines 239-242) performs the division with no check of any kind on
`denominator`, so the faithful embedding always returns `.ok`. -/
def compute_scaling_factor (P : ℚ) (illum sens : ℚ → ℚ) (cal : ℚ) (grid : List ℚ)
    (dw A : ℚ) : Except CoreError ℚ :=
  .ok (scaling_factor_I P illum sens cal grid dw A)

/-- The normalized-sensitivity computation as a fallible operation.  The
script (line 160) divides by `sensor_interp(calibrated_wavelength)` with no
zero or finiteness check, so the faithful embedding always returns `.ok`. -/
def compute_sensor_sensitivity (sens : ℚ → ℚ) (cal : ℚ) (grid : List ℚ) :
    Except CoreError (List ℚ) :=
  .ok (grid.map (sensor_sensitivity sens cal))

/-- Script lines 416-423: `illuminator_angle = diameter / distance`, clamped to
the IEC 62471 minimum of 0.011 rad, in which case the diameter is replaced by
`0.011 * distance`.  Returns the pair (angle, effective diameter), mirroring
the two mutated script variables. -/
def angular_subtense (diameter distance : ℚ) : ℚ × ℚ :=
  let angle := diameter / distance
  if angle < 0.011 then (0.011, 0.011 * distance) else (angle, diameter)

/-- Script line 426:
`2*np.pi*(1 - distance/np.sqrt(distance**2 + (diameter/2)**2))`. -/
noncomputable def solid_angle (distance diameter : ℝ) : ℝ :=
  2 * Real.pi * (1 - distance / Real.sqrt (distance ^ 2 + (diameter / 2) ^ 2))

/-- The solid angle the script actually uses: line 426 runs after the clamp of
lines 419-423 has possibly reassigned `illuminator_diameter`, so the solid
angle is computed from the effective (possibly clamped) diameter. -/
noncomputable def illuminator_solid_angle (diameter distance : ℚ) : ℝ :=
  solid_angle (distance : ℝ) (((angular_subtense diameter distance).2 : ℚ) : ℝ)

/-- The 25 tabulated wavelengths of IEC 62471 Table 4.2 (script lines 361-364). -/
def r_table_wavelengths : List ℚ :=
  [380, 385, 390, 395, 400, 405, 410, 415, 420, 425, 430, 435, 440,
   445, 450, 455, 460, 465, 470, 475, 480, 485, 490, 495, 500]

/-- The 25 tabulated weighting values of IEC 62471 Table 4.2 (script lines 365-368). -/
def r_table_values : List ℚ :=
  [0.1, 0.13, 0.25, 0.5, 1.0, 2.0, 4.0, 8.0, 9.0, 9.5, 9.8, 10.0, 10.0,
   9.7, 9.4, 9.0, 8.0, 7.0, 6.2, 5.5, 4.5, 4.0, 2.2, 1.6, 1.0]

/-- The table as (wavelength, value) pairs. -/
def r_table : List (ℚ × ℚ) :=
  List.zip r_table_wavelengths r_table_values

/-- Model of `np.interp x xp fp` for strictly increasing `xp`: clamp to the
first value left of the table, to the last value right of it, and linearly
interpolate on the bracketing segment otherwise. -/
def np_interp (x : ℚ) : List (ℚ × ℚ) → ℚ
  | [] => 0
  | [(_, y1)] => y1
  | (x1, y1) :: (x2, y2) :: rest =>
      if x ≤ x1 then y1
      else if x ≤ x2 then y1 + (y2 - y1) * (x - x1) / (x2 - x1)
      else np_interp x ((x2, y2) :: rest)

/-- Script lines 339-397, `retinal_burn_hazard_function`: the IEC 62471
retinal burn hazard weighting R(λ).  The script fills a zero array through six
boolean masks; the masks are pairwise disjoint, so the effect is this
six-branch conditional (in the script's mask order), zero outside all masks. -/
noncomputable def retinal_burn_hazard_function (w : ℚ) : ℝ :=
  if 380 ≤ w ∧ w < 500 then ((np_interp w r_table : ℚ) : ℝ)
  else if 500 ≤ w ∧ w ≤ 700 then 1
  else if 700 < w ∧ w ≤ 1050 then (10 : ℝ) ^ ((((700 - w) / 500 : ℚ) : ℝ))
  else if 1050 < w ∧ w ≤ 1150 then 0.2
  else if 1150 < w ∧ w ≤ 1200 then 0.2 * (10 : ℝ) ^ (((0.02 * (1150 - w) : ℚ) : ℝ))
  else if 1200 < w ∧ w ≤ 1400 then 0.02
  else 0

/-- The specification's reference definition of R(λ): the six-range piecewise
table of spec section 4.6, written as given there (range tests in the spec's
row order, with the spec's boundary inclusivities, zero outside [380, 1400]). -/
noncomputable def retinal_weighting_reference (w : ℚ) : ℝ :=
  if w < 380 ∨ 1400 < w then 0
  else if w < 500 then ((np_interp w r_table : ℚ) : ℝ)
  else if w ≤ 700 then 1
  else if w ≤ 1050 then (10 : ℝ) ^ ((((700 - w) / 500 : ℚ) : ℝ))
  else if w ≤ 1150 then 0.2
  else if w ≤ 1200 then 0.2 * (10 : ℝ) ^ (((0.02 * (1150 - w) : ℚ) : ℝ))
  else 0.02

/-- Script line 288: the fixed IR irradiance limit for indefinite exposure. -/
def irradiance_limit_indefinite : ℚ := 100

/-- Script line 305: `(total_ir_irradiance / 18000)**(-4/3)`. -/
noncomputable def maximum_exposure_time (total : ℚ) : ℝ :=
  ((total : ℝ) / 18000) ^ (-(4 / 3) : ℝ)

/-- Outcome record of the IR hazard branch (script lines 296-310): the branch
taken, and the figure each branch reports (a margin when safe, a maximum
exposure time when hazardous). -/
structure IRResult where
  total : ℚ
  limit : ℚ
  safe : Bool
  margin : Option ℚ
  maxTime : Option ℝ

/-- Script lines 289-310: mask the irradiance array to wavelengths in
[700, 3000], sum, multiply by dw, compare with the fixed 100 W/m² limit. -/
noncomputable def evaluate_ir_hazard (E : ℚ → ℚ) (grid : List ℚ) (dw : ℚ) : IRResult :=
  let total := ((grid.filter (fun w => 700 ≤ w ∧ w ≤ 3000)).map E).sum * dw
  if total < irradiance_limit_indefinite then
    ⟨total, irradiance_limit_indefinite, true, some (irradiance_limit_indefinite / total), none⟩
  else
    ⟨total, irradiance_limit_indefinite, false, none, some (maximum_exposure_time total)⟩

/-- Outcome record of the retinal hazard branch (script lines 482-493).  The
hazardous branch of the script reports no exposure-time figure, so the record
carries none: `maxTime` is `none` in both branches. -/
structure RetinalResult where
  weighted : ℝ
  limit : ℝ
  safe : Bool
  margin : Option ℝ
  maxTime : Option ℝ

/-- Script lines 466-493: limit `6000/alpha`; mask the radiance array to
wavelengths in [780, 1400]; weighted sum of radiance times R(λ) times dw;
compare with the limit.  Neither branch computes an exposure time. -/
noncomputable def evaluate_retinal_hazard (L : ℚ → ℝ) (grid : List ℚ) (dw alpha : ℚ) :
    RetinalResult :=
  let weighted := ((grid.filter (fun w => 780 ≤ w ∧ w ≤ 1400)).map
      (fun w => L w * retinal_burn_hazard_function w)).sum * (dw : ℝ)
  let limit := 6000 / (alpha : ℝ)
  if weighted < limit then
    ⟨weighted, limit, true, some (limit / weighted), none⟩
  else
    ⟨weighted, limit, false, none, none⟩

/-- Dynamic values relevant to `retinal_burn_hazard_function`'s input: a
Python scalar (int or float), a 0-dimensional numpy array, or a 1-dimensional
numpy array. -/
inductive PyVal
  | scalar (q : ℚ)
  | ndarray0 (q : ℚ)
  | ndarray1 (qs : List ℚ)

/-- Dynamic values relevant to its output. -/
inductive PyOut
  | pyfloat (x : ℝ)
  | ndarray0 (x : ℝ)
  | ndarray1 (xs : List ℝ)

/-- Model of `np.asarray`: a Python scalar becomes a 0-dimensional array;
arrays pass through. -/
def np_asarray : PyVal → PyVal
  | .scalar q => .ndarray0 q
  | v => v

/-- Model of `isinstance(v, (int, float))`. -/
def isinstance_scalar : PyVal → Bool
  | .scalar _ => true
  | _ => false

/-- Elementwise application of R(λ) to the (post-`asarray`) input, as done by
the masked assignments of script lines 357-392 (`zeros_like` keeps the shape). -/
noncomputable def r_lambda_elementwise : PyVal → PyOut
  | .scalar q => .pyfloat (retinal_burn_hazard_function q)
  | .ndarray0 q => .ndarray0 (retinal_burn_hazard_function q)
  | .ndarray1 qs => .ndarray1 (qs.map retinal_burn_hazard_function)

/-- Model of `.item()` on a size-one array. -/
def np_item : PyOut → PyOut
  | .ndarray0 x => .pyfloat x
  | .ndarray1 (x :: _) => .pyfloat x
  | o => o

/-- Script lines 339-397 including its dynamic typing: line 354 rebinds
`wavelength_nm` to `np.asarray(wavelength_nm)` BEFORE line 395 checks
`isinstance(wavelength_nm, (int, float))`, so the check is made on the
rebound array value. -/
noncomputable def retinal_burn_hazard_py (input : PyVal) : PyOut :=
  let wavelength_nm := np_asarray input
  let r_lambda := r_lambda_elementwise wavelength_nm
  if isinstance_scalar wavelength_nm then np_item r_lambda else r_lambda

/-! ### Helper lemmas -/

theorem dot_map_map (f g : ℚ → ℚ) (l : List ℚ) :
    dot (l.map f) (l.map g) = (l.map (fun x => f x * g x)).sum := by
  induction l with
  | nil => rfl
  | cons a l ih => simp [dot, ih]

theorem sum_map_mul_const (f : ℚ → ℚ) (c : ℚ) (l : List ℚ) :
    (l.map f).sum * c = (l.map (fun x => f x * c)).sum := by
  induction l with
  | nil => simp
  | cons a l ih => simp [add_mul, ih]

theorem mem_arange {w0 w1 dw x : ℚ} (hdw : 0 < dw) (hx : x ∈ arange w0 w1 dw) :
    w0 ≤ x ∧ x < w1 := by
  rw [arange, List.mem_map] at hx
  obtain ⟨i, hi, rfl⟩ := hx
  rw [List.mem_range] at hi
  constructor
  · have h0 : (0 : ℚ) ≤ (i : ℚ) * dw := mul_nonneg (by positivity) hdw.le
    linarith
  · have h1 : ((i : ℕ) : ℤ) < ⌈(w1 - w0) / dw⌉ := Int.lt_toNat.mp hi
    have h2 : ((i : ℕ) : ℚ) < (w1 - w0) / dw := by exact_mod_cast Int.lt_ceil.mp h1
    have h3 : ((i : ℕ) : ℚ) * dw < w1 - w0 := (lt_div_iff₀ hdw).mp h2
    linarith

/-! ### Claim theorems -/

/-- C1: for every measured power, illuminator curve, sensor model, grid
parameters and step `dw > 0`, the scaling factor equals the measured power
divided by the sum over the grid of
`illuminator_curve(λ) · normalized_sensitivity(λ) · dw · sensor_area`, and the
grid is half-open: every grid wavelength lies in `[w0, w1)`, so the upper
endpoint is excluded (a left-Riemann sum, not trapezoidal). -/
theorem scaling_factor_left_riemann (P : ℚ) (illum sens : ℚ → ℚ) (cal w0 w1 dw A : ℚ)
    (hdw : 0 < dw) :
    scaling_factor_I P illum sens cal (arange w0 w1 dw) dw A
      = P / ((arange w0 w1 dw).map
          (fun l => illum l * sensor_sensitivity sens cal l * dw * A)).sum
    ∧ ∀ l ∈ arange w0 w1 dw, w0 ≤ l ∧ l < w1 := by
  constructor
  · unfold scaling_factor_I denominator
    rw [dot_map_map, sum_map_mul_const, sum_map_mul_const]
  · intro l hl
    exact mem_arange hdw hl

/-- Witness for C1 at concrete inputs (power 1, constant curves, grid
`arange 0 10 5`, `dw = 5 > 0`, area 1). -/
theorem scaling_factor_left_riemann_witness :
    scaling_factor_I 1 (fun _ => 1) (fun _ => 1) 940 (arange 0 10 5) 5 1
      = 1 / ((arange 0 10 5).map
          (fun l => (fun _ => (1 : ℚ)) l * sensor_sensitivity (fun _ => 1) 940 l * 5 * 1)).sum
    ∧ ∀ l ∈ arange 0 10 5, (0 : ℚ) ≤ l ∧ l < 10 :=
  scaling_factor_left_riemann 1 (fun _ => 1) (fun _ => 1) 940 0 10 5 1 (by norm_num)

/-- C5: for positive diameter and distance, the angular subtense clamps
exactly when `diameter/distance < 0.011`, in which case the angle is 0.011 and
the effective diameter `0.011 · distance`; otherwise the angle is
`diameter/distance` and the diameter is unchanged; and the clamp is
idempotent: re-applying it to the resulting diameter (same distance) returns
the same (angle, diameter) pair. -/
theorem angular_subtense_clamp_iff_idempotent (d dist : ℚ) (hd : 0 < d) (hdist : 0 < dist) :
    (d / dist < 0.011 → angular_subtense d dist = (0.011, 0.011 * dist))
    ∧ (¬ d / dist < 0.011 → angular_subtense d dist = (d / dist, d))
    ∧ angular_subtense (angular_subtense d dist).2 dist = angular_subtense d dist := by
  have hne : dist ≠ 0 := ne_of_gt hdist
  by_cases h : d / dist < 0.011
  · have hfix : (0.011 * dist) / dist = (0.011 : ℚ) := by field_simp
    refine ⟨fun _ => by simp [angular_subtense, h], fun hc => absurd h hc, ?_⟩
    simp [angular_subtense, h, hfix]
  · refine ⟨fun hc => absurd hc h, fun _ => by simp [angular_subtense, h], ?_⟩
    simp [angular_subtense, h]

/-- Witness for C5 at diameter 1, distance 1 (the unclamped regime). -/
theorem angular_subtense_clamp_witness :
    ((1 : ℚ) / 1 < 0.011 → angular_subtense 1 1 = (0.011, 0.011 * 1))
    ∧ (¬ (1 : ℚ) / 1 < 0.011 → angular_subtense 1 1 = (1 / 1, 1))
    ∧ angular_subtense (angular_subtense 1 1).2 1 = angular_subtense 1 1 :=
  angular_subtense_clamp_iff_idempotent 1 1 (by norm_num) (by norm_num)

/-- C2: the IR hazard evaluation sums irradiance times `dw` over grid
wavelengths in `[700, 3000]` inclusive to get `total`; if `total < 100` the
verdict is Safe with margin `100/total` (and no exposure time); otherwise the
verdict is Hazardous with maximum exposure time `(total/18000)^(-4/3)` seconds
(and no margin). -/
theorem ir_hazard_evaluation_spec (E : ℚ → ℚ) (grid : List ℚ) (dw : ℚ) :
    (evaluate_ir_hazard E grid dw).total
      = ((grid.filter (fun w => 700 ≤ w ∧ w ≤ 3000)).map (fun w => E w * dw)).sum
    ∧ (evaluate_ir_hazard E grid dw).limit = 100
    ∧ ((evaluate_ir_hazard E grid dw).total < 100 →
        (evaluate_ir_hazard E grid dw).safe = true
        ∧ (evaluate_ir_hazard E grid dw).margin
            = some (100 / (evaluate_ir_hazard E grid dw).total)
        ∧ (evaluate_ir_hazard E grid dw).maxTime = none)
    ∧ (100 ≤ (evaluate_ir_hazard E grid dw).total →
        (evaluate_ir_hazard E grid dw).safe = false
        ∧ (evaluate_ir_hazard E grid dw).maxTime
            = some ((((evaluate_ir_hazard E grid dw).total : ℝ) / 18000) ^ (-(4 / 3) : ℝ))
        ∧ (evaluate_ir_hazard E grid dw).margin = none) := by
  by_cases h : ((grid.filter (fun w => 700 ≤ w ∧ w ≤ 3000)).map E).sum * dw
      < irradiance_limit_indefinite
  · have he : evaluate_ir_hazard E grid dw
        = ⟨((grid.filter (fun w => 700 ≤ w ∧ w ≤ 3000)).map E).sum * dw,
           irradiance_limit_indefinite, true,
           some (irradiance_limit_indefinite
             / (((grid.filter (fun w => 700 ≤ w ∧ w ≤ 3000)).map E).sum * dw)), none⟩ := by
      unfold evaluate_ir_hazard
      rw [if_pos h]
    rw [he]
    refine ⟨(sum_map_mul_const E dw _), rfl, fun _ => ⟨rfl, rfl, rfl⟩, fun hc => absurd ?_ hc.not_lt⟩
    exact h
  · have he : evaluate_ir_hazard E grid dw
        = ⟨((grid.filter (fun w => 700 ≤ w ∧ w ≤ 3000)).map E).sum * dw,
           irradiance_limit_indefinite, false, none,
           some (maximum_exposure_time
             (((grid.filter (fun w => 700 ≤ w ∧ w ≤ 3000)).map E).sum * dw))⟩ := by
      unfold evaluate_ir_hazard
      rw [if_neg h]
    rw [he]
    exact ⟨(sum_map_mul_const E dw _), rfl, fun hc => absurd hc h, fun _ => ⟨rfl, rfl, rfl⟩⟩

/-- Witness for C2: a single in-range wavelength with unit irradiance and
`dw = 5` gives `total = 5 < 100`, a Safe verdict and margin 20. -/
theorem ir_hazard_evaluation_witness :
    (evaluate_ir_hazard (fun _ => 1) [800] 5).safe = true
    ∧ (evaluate_ir_hazard (fun _ => 1) [800] 5).margin = some 20 := by
  have h := ir_hazard_evaluation_spec (fun _ => 1) [800] 5
  have htot : (evaluate_ir_hazard (fun _ => (1 : ℚ)) [800] 5).total = 5 := by
    rw [h.1]
    norm_num [List.filter]
  have hs := h.2.2.1 (by rw [htot]; norm_num)
  refine ⟨hs.1, ?_⟩
  rw [hs.2.1, htot]
  norm_num

/-- C3: the retinal hazard evaluation computes the weighted sum of
`radiance(λ) · R(λ) · dw` over grid wavelengths in `[780, 1400]`; the limit is
`6000/alpha`; if the weighted sum is below the limit the verdict is Safe with
margin `limit/weighted`; otherwise the verdict is Hazardous, and no
exposure-time figure is reported in either branch. -/
theorem retinal_hazard_evaluation_spec (L : ℚ → ℝ) (grid : List ℚ) (dw alpha : ℚ) :
    (evaluate_retinal_hazard L grid dw alpha).weighted
      = ((grid.filter (fun w => 780 ≤ w ∧ w ≤ 1400)).map
          (fun w => L w * retinal_burn_hazard_function w * (dw : ℝ))).sum
    ∧ (evaluate_retinal_hazard L grid dw alpha).limit = 6000 / (alpha : ℝ)
    ∧ ((evaluate_retinal_hazard L grid dw alpha).weighted
          < (evaluate_retinal_hazard L grid dw alpha).limit →
        (evaluate_retinal_hazard L grid dw alpha).safe = true
        ∧ (evaluate_retinal_hazard L grid dw alpha).margin
            = some ((evaluate_retinal_hazard L grid dw alpha).limit
                / (evaluate_retinal_hazard L grid dw alpha).weighted))
    ∧ ((evaluate_retinal_hazard L grid dw alpha).limit
          ≤ (evaluate_retinal_hazard L grid dw alpha).weighted →
        (evaluate_retinal_hazard L grid dw alpha).safe = false
        ∧ (evaluate_retinal_hazard L grid dw alpha).margin = none)
    ∧ (evaluate_retinal_hazard L grid dw alpha).maxTime = none := by
  by_cases h : ((grid.filter (fun w => 780 ≤ w ∧ w ≤ 1400)).map
        (fun w => L w * retinal_burn_hazard_function w)).sum * (dw : ℝ)
      < 6000 / (alpha : ℝ)
  · have he : evaluate_retinal_hazard L grid dw alpha
        = ⟨((grid.filter (fun w => 780 ≤ w ∧ w ≤ 1400)).map
              (fun w => L w * retinal_burn_hazard_function w)).sum * (dw : ℝ),
           6000 / (alpha : ℝ), true,
           some (6000 / (alpha : ℝ)
             / (((grid.filter (fun w => 780 ≤ w ∧ w ≤ 1400)).map
                  (fun w => L w * retinal_burn_hazard_function w)).sum * (dw : ℝ))), none⟩ := by
      unfold evaluate_retinal_hazard
      rw [if_pos h]
    rw [he]
    exact ⟨(List.sum_map_mul_right _ _ _).symm, rfl, fun _ => ⟨rfl, rfl⟩,
      fun hc => absurd h hc.not_lt, rfl⟩
  · have he : evaluate_retinal_hazard L grid dw alpha
        = ⟨((grid.filter (fun w => 780 ≤ w ∧ w ≤ 1400)).map
              (fun w => L w * retinal_burn_hazard_function w)).sum * (dw : ℝ),
           6000 / (alpha : ℝ), false, none, none⟩ := by
      unfold evaluate_retinal_hazard
      rw [if_neg h]
    rw [he]
    exact ⟨(List.sum_map_mul_right _ _ _).symm, rfl, fun hc => absurd hc h,
      fun _ => ⟨rfl, rfl⟩, rfl⟩

/-- Witness for C3: zero radiance on a one-point grid gives weighted sum 0,
below the positive limit `6000/0.011`, hence a Safe verdict. -/
theorem retinal_hazard_evaluation_witness :
    (evaluate_retinal_hazard (fun _ => 0) [1100] 5 0.011).safe = true := by
  have h := retinal_hazard_evaluation_spec (fun _ => 0) [1100] 5 0.011
  have hw : (evaluate_retinal_hazard (fun _ => (0 : ℝ)) [1100] 5 0.011).weighted = 0 := by
    rw [h.1]
    norm_num [List.filter]
  have hlim : (0 : ℝ) < (evaluate_retinal_hazard (fun _ => (0 : ℝ)) [1100] 5 0.011).limit := by
    rw [h.2.1]
    norm_num
  exact (h.2.2.1 (by rw [hw]; exact hlim)).1

theorem ten_rpow_seven_tenths_ne_five : (10 : ℝ) ^ ((7 / 10 : ℝ)) ≠ 5 := by
  intro h
  have h7 : (10 : ℝ) ^ ((7 : ℝ)) = ((10 : ℝ) ^ ((7 / 10 : ℝ))) ^ (10 : ℕ) := by
    rw [← Real.rpow_natCast ((10 : ℝ) ^ ((7 / 10 : ℝ))) 10,
      ← Real.rpow_mul (by norm_num : (0 : ℝ) ≤ 10)]
    norm_num
  rw [h] at h7
  rw [show (7 : ℝ) = ((7 : ℕ) : ℝ) by norm_num, Real.rpow_natCast] at h7
  norm_num at h7

theorem ten_rpow_neg_seven_tenths_ne : (10 : ℝ) ^ (-(7 / 10) : ℝ) ≠ 0.2 := by
  intro h
  rw [Real.rpow_neg (by norm_num : (0 : ℝ) ≤ 10)] at h
  have h5 : (10 : ℝ) ^ ((7 / 10 : ℝ)) = 5 := by
    have h2 := congrArg Inv.inv h
    rw [inv_inv] at h2
    rw [h2]
    norm_num
  exact ten_rpow_seven_tenths_ne_five h5

theorem hazard_eq_reference (w : ℚ) :
    retinal_burn_hazard_function w = retinal_weighting_reference w := by
  unfold retinal_burn_hazard_function retinal_weighting_reference
  by_cases h0 : w < 380 ∨ 1400 < w
  · rw [if_pos h0]
    rcases h0 with h | h
    · rw [if_neg (show ¬(380 ≤ w ∧ w < 500) by rintro ⟨h1, _⟩; linarith),
        if_neg (show ¬(500 ≤ w ∧ w ≤ 700) by rintro ⟨h1, _⟩; linarith),
        if_neg (show ¬(700 < w ∧ w ≤ 1050) by rintro ⟨h1, _⟩; linarith),
        if_neg (show ¬(1050 < w ∧ w ≤ 1150) by rintro ⟨h1, _⟩; linarith),
        if_neg (show ¬(1150 < w ∧ w ≤ 1200) by rintro ⟨h1, _⟩; linarith),
        if_neg (show ¬(1200 < w ∧ w ≤ 1400) by rintro ⟨h1, _⟩; linarith)]
    · rw [if_neg (show ¬(380 ≤ w ∧ w < 500) by rintro ⟨_, h2⟩; linarith),
        if_neg (show ¬(500 ≤ w ∧ w ≤ 700) by rintro ⟨_, h2⟩; linarith),
        if_neg (show ¬(700 < w ∧ w ≤ 1050) by rintro ⟨_, h2⟩; linarith),
        if_neg (show ¬(1050 < w ∧ w ≤ 1150) by rintro ⟨_, h2⟩; linarith),
        if_neg (show ¬(1150 < w ∧ w ≤ 1200) by rintro ⟨_, h2⟩; linarith),
        if_neg (show ¬(1200 < w ∧ w ≤ 1400) by rintro ⟨_, h2⟩; linarith)]
  · push_neg at h0
    obtain ⟨h380, h1400⟩ := h0
    rw [if_neg (show ¬(w < 380 ∨ 1400 < w) by rintro (h | h) <;> linarith)]
    by_cases hA : w < 500
    · rw [if_pos (show w < 500 from hA), if_pos (show 380 ≤ w ∧ w < 500 from ⟨h380, hA⟩)]
    · push_neg at hA
      rw [if_neg (show ¬(380 ≤ w ∧ w < 500) by rintro ⟨_, hb⟩; linarith),
        if_neg (show ¬(w < 500) from not_lt.mpr hA)]
      by_cases hB : w ≤ 700
      · rw [if_pos (show w ≤ 700 from hB), if_pos (show 500 ≤ w ∧ w ≤ 700 from ⟨hA, hB⟩)]
      · push_neg at hB
        rw [if_neg (show ¬(500 ≤ w ∧ w ≤ 700) by rintro ⟨_, hb⟩; linarith),
          if_neg (show ¬(w ≤ 700) from not_le.mpr hB)]
        by_cases hC : w ≤ 1050
        · rw [if_pos (show w ≤ 1050 from hC), if_pos (show 700 < w ∧ w ≤ 1050 from ⟨hB, hC⟩)]
        · push_neg at hC
          rw [if_neg (show ¬(700 < w ∧ w ≤ 1050) by rintro ⟨_, hb⟩; linarith),
            if_neg (show ¬(w ≤ 1050) from not_le.mpr hC)]
          by_cases hD : w ≤ 1150
          · rw [if_pos (show w ≤ 1150 from hD),
              if_pos (show 1050 < w ∧ w ≤ 1150 from ⟨hC, hD⟩)]
          · push_neg at hD
            rw [if_neg (show ¬(1050 < w ∧ w ≤ 1150) by rintro ⟨_, hb⟩; linarith),
              if_neg (show ¬(w ≤ 1150) from not_le.mpr hD)]
            by_cases hE : w ≤ 1200
            · rw [if_pos (show w ≤ 1200 from hE),
                if_pos (show 1150 < w ∧ w ≤ 1200 from ⟨hD, hE⟩)]
            · push_neg at hE
              rw [if_neg (show ¬(1150 < w ∧ w ≤ 1200) by rintro ⟨_, hb⟩; linarith),
                if_neg (show ¬(w ≤ 1200) from not_le.mpr hE),
                if_pos (show 1200 < w ∧ w ≤ 1400 from ⟨hE, h1400⟩)]

theorem hazard_at_1050 :
    retinal_burn_hazard_function 1050 = (10 : ℝ) ^ ((700 - 1050 : ℝ) / 500) := by
  unfold retinal_burn_hazard_function
  rw [if_neg (show ¬((380 : ℚ) ≤ 1050 ∧ (1050 : ℚ) < 500) by rintro ⟨_, hb⟩; norm_num at hb),
    if_neg (show ¬((500 : ℚ) ≤ 1050 ∧ (1050 : ℚ) ≤ 700) by rintro ⟨_, hb⟩; norm_num at hb),
    if_pos (show (700 : ℚ) < 1050 ∧ (1050 : ℚ) ≤ 1050 by constructor <;> norm_num)]
  congr 1
  push_cast
  norm_num

theorem hazard_plateau_above_1050 (w : ℚ) (h1 : 1050 < w) (h2 : w ≤ 1150) :
    retinal_burn_hazard_function w = 0.2 := by
  unfold retinal_burn_hazard_function
  rw [if_neg (show ¬(380 ≤ w ∧ w < 500) by rintro ⟨_, hb⟩; linarith),
    if_neg (show ¬(500 ≤ w ∧ w ≤ 700) by rintro ⟨_, hb⟩; linarith),
    if_neg (show ¬(700 < w ∧ w ≤ 1050) by rintro ⟨_, hb⟩; linarith),
    if_pos (show 1050 < w ∧ w ≤ 1150 from ⟨h1, h2⟩)]

/-- C4: the retinal burn hazard weighting function of the script equals the
six-range piecewise reference definition of the specification at every
wavelength, with the stated boundary inclusivities; in particular
`R(1050) = 10^((700 − 1050)/500)` from the `(700, 1050]` branch,
`R(λ) = 0.2` for every λ in `(1050, 1150]`, and the two values differ, so the
standard's step discontinuity at 1050 nm is preserved. -/
theorem retinal_weighting_matches_reference :
    (∀ w : ℚ, retinal_burn_hazard_function w = retinal_weighting_reference w)
    ∧ retinal_burn_hazard_function 1050 = (10 : ℝ) ^ ((700 - 1050 : ℝ) / 500)
    ∧ retinal_burn_hazard_function 1050 ≠ 0.2
    ∧ (∀ w : ℚ, 1050 < w → w ≤ 1150 → retinal_burn_hazard_function w = 0.2) := by
  refine ⟨hazard_eq_reference, hazard_at_1050, ?_, hazard_plateau_above_1050⟩
  rw [hazard_at_1050]
  have hexp : ((700 - 1050 : ℝ)) / 500 = (-(7 / 10) : ℝ) := by norm_num
  rw [hexp]
  exact ten_rpow_neg_seven_tenths_ne

/-- Witness for C4 just above the discontinuity: `R(1051) = 0.2`. -/
theorem retinal_weighting_matches_reference_witness :
    retinal_burn_hazard_function 1051 = 0.2 :=
  retinal_weighting_matches_reference.2.2.2 1051 (by norm_num) (by norm_num)

theorem solid_angle_lt_of_lt {dist d1 d2 : ℝ} (hdist : 0 < dist) (h1 : 0 ≤ d1)
    (h : d1 < d2) : solid_angle dist d1 < solid_angle dist d2 := by
  unfold solid_angle
  have hx1 : (0 : ℝ) < dist ^ 2 + (d1 / 2) ^ 2 := by positivity
  have hlt : dist ^ 2 + (d1 / 2) ^ 2 < dist ^ 2 + (d2 / 2) ^ 2 := by nlinarith
  have hs1 : 0 < Real.sqrt (dist ^ 2 + (d1 / 2) ^ 2) := Real.sqrt_pos.mpr hx1
  have hs : Real.sqrt (dist ^ 2 + (d1 / 2) ^ 2) < Real.sqrt (dist ^ 2 + (d2 / 2) ^ 2) :=
    Real.sqrt_lt_sqrt hx1.le hlt
  have hdiv : dist / Real.sqrt (dist ^ 2 + (d2 / 2) ^ 2)
      < dist / Real.sqrt (dist ^ 2 + (d1 / 2) ^ 2) :=
    div_lt_div_of_pos_left hdist hs1 hs
  have hpi : (0 : ℝ) < 2 * Real.pi := by positivity
  have := mul_lt_mul_of_pos_left (sub_lt_sub_left hdiv 1) hpi
  linarith

theorem solid_angle_pos {dist d : ℝ} (hdist : 0 < dist) (hd : 0 < d) :
    0 < solid_angle dist d := by
  unfold solid_angle
  have hx : (0 : ℝ) < dist ^ 2 + (d / 2) ^ 2 := by positivity
  have hs : 0 < Real.sqrt (dist ^ 2 + (d / 2) ^ 2) := Real.sqrt_pos.mpr hx
  have hlt : dist < Real.sqrt (dist ^ 2 + (d / 2) ^ 2) := by
    rw [Real.lt_sqrt hdist.le]
    nlinarith
  have hq : dist / Real.sqrt (dist ^ 2 + (d / 2) ^ 2) < 1 := (div_lt_one hs).mpr hlt
  have hpi : (0 : ℝ) < 2 * Real.pi := by positivity
  nlinarith

/-- C10: when `diameter/distance < 0.011` the script computes the solid angle
from the clamped effective diameter `0.011 · distance` (which enlarges the
solid angle relative to the physical diameter, and so lowers any positive
radiance `e / Ω`); otherwise it computes the solid angle
`2π(1 − distance/√(distance² + (diameter/2)²))` from the physical diameter
unchanged. -/
theorem solid_angle_uses_clamped_diameter (d dist : ℚ) (hd : 0 < d) (hdist : 0 < dist) :
    (d / dist < 0.011 →
      illuminator_solid_angle d dist = solid_angle (dist : ℝ) (((0.011 * dist : ℚ) : ℝ))
      ∧ solid_angle (dist : ℝ) ((d : ℝ)) < illuminator_solid_angle d dist
      ∧ ∀ e : ℝ, 0 < e →
          e / illuminator_solid_angle d dist < e / solid_angle (dist : ℝ) ((d : ℝ)))
    ∧ (¬ d / dist < 0.011 →
      illuminator_solid_angle d dist = solid_angle (dist : ℝ) ((d : ℝ))) := by
  constructor
  · intro h
    have hqd : (angular_subtense d dist).2 = 0.011 * dist := by
      simp [angular_subtense, h]
    have heq : illuminator_solid_angle d dist
        = solid_angle (dist : ℝ) (((0.011 * dist : ℚ) : ℝ)) := by
      unfold illuminator_solid_angle
      rw [hqd]
    have hdr : (0 : ℝ) < (dist : ℝ) := by exact_mod_cast hdist
    have hd0 : (0 : ℝ) ≤ (d : ℝ) := by exact_mod_cast hd.le
    have hlt : (d : ℝ) < ((0.011 * dist : ℚ) : ℝ) := by
      have hq : d < 0.011 * dist := by
        have := (div_lt_iff₀ hdist).mp h
        linarith
      exact_mod_cast hq
    have hmono := solid_angle_lt_of_lt hdr hd0 hlt
    have hOpos : 0 < solid_angle (dist : ℝ) ((d : ℝ)) :=
      solid_angle_pos hdr (by exact_mod_cast hd)
    refine ⟨heq, by rw [heq]; exact hmono, fun e he => ?_⟩
    rw [heq]
    exact div_lt_div_of_pos_left he hOpos hmono
  · intro h
    have hqd : (angular_subtense d dist).2 = d := by
      simp [angular_subtense, h]
    unfold illuminator_solid_angle
    rw [hqd]

/-- Witness for C10 with a small source (diameter 1 mm at 1 m, raw angle
0.001 < 0.011 rad): the solid angle is the clamped one, strictly larger than
the physical one, and unit radiance is strictly lowered. -/
theorem solid_angle_uses_clamped_diameter_witness :
    illuminator_solid_angle (1 / 1000) 1 = solid_angle ((1 : ℚ) : ℝ) (((0.011 * 1 : ℚ) : ℝ))
    ∧ solid_angle ((1 : ℚ) : ℝ) (((1 / 1000 : ℚ) : ℝ)) < illuminator_solid_angle (1 / 1000) 1
    ∧ (1 : ℝ) / illuminator_solid_angle (1 / 1000) 1
        < 1 / solid_angle ((1 : ℚ) : ℝ) (((1 / 1000 : ℚ) : ℝ)) := by
  have h := (solid_angle_uses_clamped_diameter (1 / 1000) 1 (by norm_num) (by norm_num)).1
    (by norm_num)
  exact ⟨h.1, h.2.1, h.2.2 1 (by norm_num)⟩

theorem dot_map_smul (c : ℚ) (f g : ℚ → ℚ) (l : List ℚ) :
    dot (l.map (fun x => c * f x)) (l.map g) = c * dot (l.map f) (l.map g) := by
  induction l with
  | nil => simp [dot]
  | cons a l ih =>
      simp only [List.map_cons, dot, ih]
      ring

theorem arange_zero_ten_five : arange 0 10 5 = [0, 5] := by
  have h : (⌈((10 : ℚ) - 0) / 5⌉ : ℤ) = 2 := by norm_num
  rw [arange, h, show Int.toNat 2 = 2 from rfl]
  simp [List.range_succ]

theorem arange_zero_ten_one : arange 0 10 1 = [0, 1, 2, 3, 4, 5, 6, 7, 8, 9] := by
  have h : (⌈((10 : ℚ) - 0) / 1⌉ : ℤ) = 10 := by norm_num
  rw [arange, h, show Int.toNat 10 = 10 from rfl]
  simp [List.range_succ]

/-- Counterexample to C6 as stated: with constant unit curves, calibration at
940, sensor area 2 and measured power 1, integrating the synthesized
irradiance back over the full grid with the same left-Riemann convention
yields 1/2, not the measured power 1 — and it yields the same 1/2 at step
`dw = 5` and at the five-times-finer step `dw = 1`, so the discrepancy is not
a discretization error bounded by `dw`. -/
theorem roundtrip_counterexample :
    total_calculated_irradiance
      (illuminator_spectral_irradiance
        (scaling_factor_I 1 (fun _ => 1) (fun _ => 1) 940 (arange 0 10 5) 5 2)
        (fun _ => 1) (arange 0 10 5)) 5 = 1 / 2
    ∧ total_calculated_irradiance
      (illuminator_spectral_irradiance
        (scaling_factor_I 1 (fun _ => 1) (fun _ => 1) 940 (arange 0 10 1) 1 2)
        (fun _ => 1) (arange 0 10 1)) 1 = 1 / 2
    ∧ (1 / 2 : ℚ) ≠ 1 := by
  refine ⟨?_, ?_, by norm_num⟩
  · rw [arange_zero_ten_five]
    norm_num [total_calculated_irradiance, illuminator_spectral_irradiance,
      scaling_factor_I, denominator, dot, sensor_sensitivity]
  · rw [arange_zero_ten_one]
    norm_num [total_calculated_irradiance, illuminator_spectral_irradiance,
      scaling_factor_I, denominator, dot, sensor_sensitivity]

/-- C6 amended: the discrete round trip that does hold, exactly: integrating
the synthesized spectral irradiance back against the normalized sensor
sensitivity and the sensor area, with the same left-Riemann convention,
recovers the measured power whenever the denominator is nonzero. -/
theorem roundtrip_with_sensitivity_exact (P : ℚ) (illum sens : ℚ → ℚ) (cal : ℚ)
    (grid : List ℚ) (dw A : ℚ)
    (hden : denominator illum sens cal grid dw A ≠ 0) :
    dot (illuminator_spectral_irradiance
          (scaling_factor_I P illum sens cal grid dw A) illum grid)
        (grid.map (sensor_sensitivity sens cal)) * dw * A = P := by
  unfold illuminator_spectral_irradiance
  rw [dot_map_smul]
  have hstep : scaling_factor_I P illum sens cal grid dw A
        * dot (grid.map illum) (grid.map (sensor_sensitivity sens cal)) * dw * A
      = scaling_factor_I P illum sens cal grid dw A
        * denominator illum sens cal grid dw A := by
    unfold denominator
    ring
  rw [hstep]
  unfold scaling_factor_I
  exact div_mul_cancel₀ P hden

/-- Witness for the amended C6 at concrete inputs where the denominator is
nonzero. -/
theorem roundtrip_with_sensitivity_exact_witness :
    dot (illuminator_spectral_irradiance
          (scaling_factor_I 1 (fun _ => 1) (fun _ => 1) 940 (arange 0 10 5) 5 2)
          (fun _ => 1) (arange 0 10 5))
        ((arange 0 10 5).map (sensor_sensitivity (fun _ => 1) 940)) * 5 * 2 = 1 :=
  roundtrip_with_sensitivity_exact 1 (fun _ => 1) (fun _ => 1) 940 (arange 0 10 5) 5 2
    (by rw [arange_zero_ten_five]; norm_num [denominator, dot, sensor_sensitivity])

/-- C7 (code bug): evaluating the weighting function on the scalar 940
returns a 0-dimensional ndarray, never a Python float — the `isinstance`
check of script line 395 inspects the value rebound by `np.asarray` on line
354, so the documented scalar-to-float branch is dead — while the numeric
value agrees with batch evaluation on the one-element array [940]. -/
theorem scalar_eval_returns_ndarray :
    retinal_burn_hazard_py (.scalar 940) = .ndarray0 (retinal_burn_hazard_function 940)
    ∧ (∀ x : ℝ, retinal_burn_hazard_py (.scalar 940) ≠ .pyfloat x)
    ∧ retinal_burn_hazard_py (.ndarray1 [940])
        = .ndarray1 [retinal_burn_hazard_function 940] := by
  refine ⟨rfl, fun x h => ?_, rfl⟩
  have h2 : PyOut.ndarray0 (retinal_burn_hazard_function 940) = .pyfloat x := h
  exact PyOut.noConfusion h2

/-- Counterexample to C8 as stated: a concrete input with a zero denominator
on which the computation still returns a scaling factor (`.ok`), raising no
`ComputationError`. -/
theorem scaling_factor_no_error_counterexample :
    denominator (fun _ => 0) (fun _ => 1) 940 (arange 800 900 5) 5 1 = 0
    ∧ compute_scaling_factor 1 (fun _ => 0) (fun _ => 1) 940 (arange 800 900 5) 5 1
        = .ok (scaling_factor_I 1 (fun _ => 0) (fun _ => 1) 940 (arange 800 900 5) 5 1) := by
  refine ⟨?_, rfl⟩
  unfold denominator
  rw [dot_map_map]
  simp

/-- C8 amended: the scaling-factor computation never fails: for every input it
returns `measured_power / denominator` unconditionally — also when the
denominator is zero or negative — and never produces any error. -/
theorem scaling_factor_total_no_error (P : ℚ) (illum sens : ℚ → ℚ) (cal : ℚ)
    (grid : List ℚ) (dw A : ℚ) :
    compute_scaling_factor P illum sens cal grid dw A
      = .ok (P / denominator illum sens cal grid dw A)
    ∧ ∀ e : CoreError, compute_scaling_factor P illum sens cal grid dw A ≠ .error e :=
  ⟨rfl, fun _ h => Except.noConfusion h⟩

/-- Counterexample to C9 as stated: a responsivity curve that is zero at the
calibration wavelength 940, on which the normalized-sensitivity computation
still returns values (`.ok`), raising no `ConfigError`. -/
theorem sensitivity_no_error_counterexample :
    (fun w : ℚ => w - 940) 940 = 0
    ∧ compute_sensor_sensitivity (fun w => w - 940) 940 [900]
        = .ok [sensor_sensitivity (fun w => w - 940) 940 900] :=
  ⟨by norm_num, rfl⟩

/-- C9 amended: the normalized-sensitivity computation never fails: for every
responsivity curve it returns the pointwise quotients by the calibration
responsivity unconditionally — also when that responsivity is zero — and never
produces any error. -/
theorem sensitivity_total_no_error (sens : ℚ → ℚ) (cal : ℚ) (grid : List ℚ) :
    compute_sensor_sensitivity sens cal grid = .ok (grid.map (sensor_sensitivity sens cal))
    ∧ ∀ e : CoreError, compute_sensor_sensitivity sens cal grid ≠ .error e :=
  ⟨rfl, fun _ h => Except.noConfusion h⟩

end IRSafety
